import Mathlib

/-!
Shallow embedding of the request/response translation layer of the
`todoist-api` Rust client (files `src/models.rs` and `src/wrapper.rs`).

The embedding models:
- JSON values (`serde_json::Value`) as an inductive `Json` type;
- the error taxonomy `TodoistError` from `models.rs`;
- the argument structures (`UpdateTaskArgs`, `UpdateProjectArgs`,
  `TaskFilterArgs`, ...) and their `has_updates` methods;
- the body-construction loops of `create_*`/`update_*` (field-by-field
  `HashMap` insertion) as ordered association lists — the Rust `HashMap`
  has no duplicate keys and its iteration order is irrelevant to every
  property stated here, which only concerns key membership;
- the response classification algorithm `handle_response`, with the HTTP
  response abstracted as a status code, an optional body text (`none`
  models a transport failure while reading the body), and the optional
  `Retry-After` header value;
- JSON deserialization (`serde_json::from_str::<T>`) abstracted as an
  explicit decoding function `String → Except String α`, matching Rust's
  type-directed dispatch; the concrete decoder for the Rust unit type
  (used by all DELETE / task-close / task-reopen calls) is `unitParse`.
-/

namespace Todoist

/-- JSON values, modelling `serde_json::Value`. Numbers are restricted to
integers, which covers every value this client serializes (i32 / u64). -/
inductive Json where
  | null : Json
  | bool (b : Bool) : Json
  | num (n : Int) : Json
  | str (s : String) : Json
  | arr (xs : List Json) : Json
  | obj (fields : List (String × Json)) : Json

/-- The error taxonomy `TodoistError` from `models.rs` (one constructor per
variant, same payloads; Rust `u64`/`u16` payloads become `Nat`). -/
inductive TodoistError where
  | RateLimited (retryAfter : Option Nat) (message : String)
  | AuthenticationError (message : String)
  | AuthorizationError (message : String)
  | NotFound (resourceType : String) (resourceId : Option String) (message : String)
  | ValidationError (field : Option String) (message : String)
  | ServerError (statusCode : Nat) (message : String)
  | NetworkError (message : String)
  | ParseError (message : String)
  | EmptyResponse (endpoint : String) (message : String)
  | Generic (statusCode : Option Nat) (message : String)
deriving DecidableEq

/-- `TodoistResult<T>` from `models.rs`. -/
abbrev TodoistResult (α : Type) := Except TodoistError α

/-- `UpdateTaskArgs` from `models.rs`: every field optional. -/
structure UpdateTaskArgs where
  content : Option String := none
  description : Option String := none
  priority : Option Int := none
  labels : Option (List String) := none
  due_string : Option String := none
  due_date : Option String := none
  due_datetime : Option String := none
  due_lang : Option String := none
  deadline_date : Option String := none
  deadline_lang : Option String := none
  assignee_id : Option String := none
  duration : Option Int := none
  duration_unit : Option String := none

/-- `UpdateTaskArgs::default()` (Rust `derive(Default)`): all fields `None`. -/
def UpdateTaskArgs.default : UpdateTaskArgs := {}

/-- `UpdateTaskArgs::has_updates` from `models.rs`. -/
def UpdateTaskArgs.has_updates (a : UpdateTaskArgs) : Bool :=
  a.content.isSome ||
  a.description.isSome ||
  a.priority.isSome ||
  a.labels.isSome ||
  a.due_string.isSome ||
  a.due_date.isSome ||
  a.due_datetime.isSome ||
  a.due_lang.isSome ||
  a.deadline_date.isSome ||
  a.deadline_lang.isSome ||
  a.assignee_id.isSome ||
  a.duration.isSome ||
  a.duration_unit.isSome

/-- `UpdateProjectArgs` from `models.rs`. -/
structure UpdateProjectArgs where
  name : Option String := none
  color : Option String := none
  is_favorite : Option Bool := none
  view_style : Option String := none

/-- `UpdateProjectArgs::has_updates` from `models.rs`. -/
def UpdateProjectArgs.has_updates (a : UpdateProjectArgs) : Bool :=
  a.name.isSome || a.color.isSome || a.is_favorite.isSome || a.view_style.isSome

/-- `TaskFilterArgs` from `models.rs`: `query` mandatory, the rest optional. -/
structure TaskFilterArgs where
  query : String
  lang : Option String := none
  limit : Option Int := none
  cursor : Option String := none

/-- One `if let Some(x) = &args.f { body.insert(k, to_value(x)) }` step of the
body-construction loops in `wrapper.rs`: a set field contributes its single
key/value entry, an unset field contributes nothing. -/
def optEntry (key : String) (v : Option Json) : List (String × Json) :=
  match v with
  | some j => [(key, j)]
  | none => []

/-- The JSON body assembled by `update_task` (`wrapper.rs`, lines 358-400):
one optional entry per field, in source order. -/
def updateTaskBody (args : UpdateTaskArgs) : List (String × Json) :=
  optEntry "content" (args.content.map Json.str) ++
  optEntry "description" (args.description.map Json.str) ++
  optEntry "priority" (args.priority.map Json.num) ++
  optEntry "labels" (args.labels.map (fun ls => Json.arr (ls.map Json.str))) ++
  optEntry "due_string" (args.due_string.map Json.str) ++
  optEntry "due_date" (args.due_date.map Json.str) ++
  optEntry "due_datetime" (args.due_datetime.map Json.str) ++
  optEntry "due_lang" (args.due_lang.map Json.str) ++
  optEntry "deadline_date" (args.deadline_date.map Json.str) ++
  optEntry "deadline_lang" (args.deadline_lang.map Json.str) ++
  optEntry "assignee_id" (args.assignee_id.map Json.str) ++
  optEntry "duration" (args.duration.map Json.num) ++
  optEntry "duration_unit" (args.duration_unit.map Json.str)

/-- The JSON body assembled by `update_project` (`wrapper.rs`, lines 240-254). -/
def updateProjectBody (args : UpdateProjectArgs) : List (String × Json) :=
  optEntry "name" (args.name.map Json.str) ++
  optEntry "color" (args.color.map Json.str) ++
  optEntry "is_favorite" (args.is_favorite.map Json.bool) ++
  optEntry "view_style" (args.view_style.map Json.str)

/-- An outbound HTTP request as the resource methods of `wrapper.rs` build it:
method, endpoint path (ids already interpolated), optional JSON body. -/
structure HttpRequest where
  method : String
  endpoint : String
  body : Option Json

/-- The request built and sent by `update_task` (`wrapper.rs`, lines 358-404).
The source constructs the body and calls `make_post_request` unconditionally:
there is no `has_updates` check anywhere in `wrapper.rs`. -/
def updateTaskRequest (taskId : String) (args : UpdateTaskArgs) : HttpRequest :=
  { method := "POST"
    endpoint := "/tasks/" ++ taskId
    body := some (Json.obj (updateTaskBody args)) }

/-- The request built and sent by `update_project` (`wrapper.rs`, lines
240-258); like `update_task`, it posts unconditionally. -/
def updateProjectRequest (projectId : String) (args : UpdateProjectArgs) : HttpRequest :=
  { method := "POST"
    endpoint := "/projects/" ++ projectId
    body := some (Json.obj (updateProjectBody args)) }

/-- An HTTP response as `handle_response` observes it: the status code, the
result of reading the body as text (`none` models `response.text()` failing),
and the `Retry-After` header (`none` when absent or not readable as a
string, mirroring `headers.get(..).and_then(|v| v.to_str().ok())`). -/
structure HttpResponse where
  status : Nat
  bodyRead : Option String
  retryAfterHeader : Option String

/-- `text.trim().is_empty()` from `handle_response`: a string trims to the
empty string exactly when every character is whitespace, so the test is
rendered directly as an all-whitespace check on the character list. -/
def isBlankText (s : String) : Bool :=
  s.data.all Char.isWhitespace

/-- Leading and trailing whitespace removal on a character list (Rust
`str::trim`, used below to model serde's tolerance of surrounding
whitespace around a JSON document). -/
def trimChars (cs : List Char) : List Char :=
  ((cs.dropWhile Char.isWhitespace).reverse.dropWhile Char.isWhitespace).reverse

/-- Rust `str::parse::<u64>`: an optional leading `+`, then one or more ASCII
digits, no other characters, and the value must fit in 64 bits. -/
def parseU64 (s : String) : Option Nat :=
  let digits := match s.data with
    | '+' :: rest => rest
    | cs => cs
  if digits.isEmpty then none
  else if !digits.all Char.isDigit then none
  else
    let n := digits.foldl (fun acc c => acc * 10 + (c.toNat - 48)) 0
    if n < 2 ^ 64 then some n else none

/-- `serde_json::from_str::<()>`: deserialization of the Rust unit type,
which accepts exactly the JSON literal `null` (with surrounding whitespace).
This is the decoder at which every DELETE and task close/reopen call of
`wrapper.rs` instantiates the generic response handling. -/
def unitParse (s : String) : Except String Unit :=
  if trimChars s.data = "null".data then Except.ok ()
  else Except.error ("invalid type, expected null, got: " ++ s)

/-- The `Project` model from `models.rs`. -/
structure Project where
  id : String
  name : String
  comment_count : Int
  order : Int
  color : String
  is_shared : Bool
  is_favorite : Bool
  is_inbox_project : Bool
  is_team_inbox : Bool
  view_style : String
  url : String
  parent_id : Option String

/-- `serde_json::from_str::<Project>`: the deserializer derived for the
`Project` struct of `models.rs` requires a JSON object, so it rejects the
document `null` with serde's invalid-type error (position information
omitted). Decoding an actual JSON object into a `Project` is taken as a
parameter and left unconstrained: the only document the empty-body POST
path ever feeds this decoder is the synthesized `null`, and no theorem
below evaluates it on any other document. -/
def projectParse (fromDocument : String → Except String Project)
    (s : String) : Except String Project :=
  if trimChars s.data = "null".data then
    Except.error "invalid type: null, expected struct Project"
  else fromDocument s

/-- The `error_text` read in the failure branch of `handle_response`:
the body text when it can be read, else the synthetic fallback message. -/
def errorBodyText (response : HttpResponse) : String :=
  response.bodyRead.getD
    ("Unknown error occurred (HTTP " ++ toString response.status ++ ")")

/-- `handle_response` from `wrapper.rs` (lines 106-190). The match on the
status code in the error branch is rendered as a chain of equality tests;
the Rust arms (`401`, `403`, `404`, `429`, `400`, `500..=599`, `_`) are
pairwise disjoint, so the chain is equivalent to the match. The synthetic
fallback message abbreviates the status display to the bare numeric code
(Rust also appends the canonical reason phrase); no property stated below
depends on the fallback text. -/
def handleResponse {α : Type} (parse : String → Except String α)
    (httpMethod : String) (endpoint : String) (response : HttpResponse) :
    TodoistResult α :=
  let status := response.status
  if 200 ≤ status ∧ status ≤ 299 then
    match response.bodyRead with
    | none => Except.error (TodoistError.NetworkError "Failed to read response body")
    | some text =>
      if httpMethod = "DELETE" ∧ isBlankText text then
        match parse "null" with
        | Except.ok v => Except.ok v
        | Except.error e =>
            Except.error (TodoistError.ParseError
              ("Failed to deserialize empty DELETE response: " ++ e))
      else if httpMethod = "POST" ∧ (status = 204 ∨ isBlankText text) then
        match parse "null" with
        | Except.ok v => Except.ok v
        | Except.error e =>
            Except.error (TodoistError.ParseError
              ("Failed to deserialize empty POST response: " ++ e))
      else if isBlankText text then
        Except.error (TodoistError.EmptyResponse endpoint "API returned empty response body")
      else
        match parse text with
        | Except.ok v => Except.ok v
        | Except.error e =>
            Except.error (TodoistError.ParseError ("Failed to parse response: " ++ e))
  else
    let errorText := errorBodyText response
    Except.error <|
      if status = 401 then TodoistError.AuthenticationError errorText
      else if status = 403 then TodoistError.AuthorizationError errorText
      else if status = 404 then TodoistError.NotFound "Resource" none errorText
      else if status = 429 then
        TodoistError.RateLimited (response.retryAfterHeader.bind parseU64) errorText
      else if status = 400 then TodoistError.ValidationError none errorText
      else if 500 ≤ status ∧ status ≤ 599 then TodoistError.ServerError status errorText
      else TodoistError.Generic (some status) errorText

/-- `make_get_request` / `make_get_request_with_params`: the response side
(`handle_response` is called with method `"GET"` and the endpoint path). -/
def makeGetRequest {α : Type} (parse : String → Except String α)
    (endpoint : String) (response : HttpResponse) : TodoistResult α :=
  handleResponse parse "GET" endpoint response

/-- `make_post_request`: the response side. -/
def makePostRequest {α : Type} (parse : String → Except String α)
    (endpoint : String) (response : HttpResponse) : TodoistResult α :=
  handleResponse parse "POST" endpoint response

/-- `make_delete_request`: the response side. -/
def makeDeleteRequest {α : Type} (parse : String → Except String α)
    (endpoint : String) (response : HttpResponse) : TodoistResult α :=
  handleResponse parse "DELETE" endpoint response

/-- `get_project` (`wrapper.rs`, line 214): a GET to `/projects/{id}`,
decoded at the `Project` type; the decoder is a parameter here, exactly as
the Rust type parameter `T` directs `serde_json::from_str::<T>`. -/
def getProject {α : Type} (parse : String → Except String α)
    (projectId : String) (response : HttpResponse) : TodoistResult α :=
  makeGetRequest parse ("/projects/" ++ projectId) response

/-- `get_task` (`wrapper.rs`, line 278): a GET to `/tasks/{id}`. -/
def getTask {α : Type} (parse : String → Except String α)
    (taskId : String) (response : HttpResponse) : TodoistResult α :=
  makeGetRequest parse ("/tasks/" ++ taskId) response

/-- `delete_project` (`wrapper.rs`, line 261): a DELETE to `/projects/{id}`
decoded at the unit type. -/
def deleteProject (projectId : String) (response : HttpResponse) : TodoistResult Unit :=
  makeDeleteRequest unitParse ("/projects/" ++ projectId) response

/-- `complete_task` (`wrapper.rs`, line 407): a POST to `/tasks/{id}/close`
with no body, decoded at the unit type. -/
def completeTask (taskId : String) (response : HttpResponse) : TodoistResult Unit :=
  makePostRequest unitParse ("/tasks/" ++ taskId ++ "/close") response

/-- `create_project` (`wrapper.rs`, line 219), response side: a POST to
`/projects` decoded at the `Project` type. -/
def createProject (parse : String → Except String Project)
    (response : HttpResponse) : TodoistResult Project :=
  makePostRequest parse "/projects" response

/-- `TODOIST_API_BASE` from `wrapper.rs`. -/
def TODOIST_API_BASE : String := "https://api.todoist.com/rest/v2"

/-- URL construction of `make_get_request_with_params` (`wrapper.rs`, lines
40-48): base followed by the endpoint; when the parameter list is nonempty,
`?` followed by the `k=v` pairs joined with `&`, the raw strings verbatim. -/
def buildGetUrl (endpoint : String) (queryParams : List (String × String)) : String :=
  let url := TODOIST_API_BASE ++ endpoint
  if queryParams.isEmpty then url
  else url ++ "?" ++ String.intercalate "&" (queryParams.map (fun kv => kv.1 ++ "=" ++ kv.2))

/-- The query-parameter list built by `get_tasks_by_filter` (`wrapper.rs`,
lines 283-296): `query` always, then `lang`, `limit`, `cursor` when set. -/
def taskFilterQueryParams (args : TaskFilterArgs) : List (String × String) :=
  [("query", args.query)] ++
  (match args.lang with | some lang => [("lang", lang)] | none => []) ++
  (match args.limit with | some limit => [("limit", toString limit)] | none => []) ++
  (match args.cursor with | some cursor => [("cursor", cursor)] | none => [])

/-- The full URL `get_tasks_by_filter` requests. -/
def getTasksByFilterUrl (args : TaskFilterArgs) : String :=
  buildGetUrl "/tasks" (taskFilterQueryParams args)

/-- Membership in a single optional body entry: the key must match and the
optional value must be set to exactly that JSON value. -/
theorem mem_optEntry {k key : String} {v : Json} {o : Option Json} :
    (k, v) ∈ optEntry key o ↔ k = key ∧ o = some v := by
  cases o with
  | none => simp [optEntry]
  | some j =>
      simp only [optEntry, List.mem_singleton, Prod.mk.injEq, Option.some.injEq]
      constructor
      · rintro ⟨h1, h2⟩
        exact ⟨h1, h2.symm⟩
      · rintro ⟨h1, h2⟩
        exact ⟨h1, h2.symm⟩

/-- The unit decoder accepts the literal `null`. -/
theorem unitParse_null : unitParse "null" = Except.ok () := rfl

/-- C1 (code bug): for `UpdateTaskArgs` with zero fields set (the `Default`
value), `has_updates` is `false`, yet `update_task` still assembles an empty
JSON object body and issues a POST to the task's URL; `wrapper.rs` never
consults `has_updates`, so no local ValidationError is raised and an HTTP
request is always made. -/
theorem update_task_zero_fields_still_posts :
    UpdateTaskArgs.has_updates UpdateTaskArgs.default = false ∧
    updateTaskRequest "1" UpdateTaskArgs.default =
      { method := "POST", endpoint := "/tasks/1", body := some (Json.obj []) } := by
  exact ⟨rfl, rfl⟩

/-- C9: the JSON body assembled by `update_task` / `update_project` contains
exactly one entry per set field — a pair `(k, v)` is in the body iff `k` is
the JSON key of some field that is set and `v` is that field's serialized
value; an unset field contributes no key at all. -/
theorem update_body_exactly_set_fields :
    (∀ (args : UpdateTaskArgs) (k : String) (v : Json),
      (k, v) ∈ updateTaskBody args ↔
        (k = "content" ∧ ∃ s, args.content = some s ∧ Json.str s = v) ∨
        (k = "description" ∧ ∃ s, args.description = some s ∧ Json.str s = v) ∨
        (k = "priority" ∧ ∃ n, args.priority = some n ∧ Json.num n = v) ∨
        (k = "labels" ∧ ∃ ls, args.labels = some ls ∧ Json.arr (ls.map Json.str) = v) ∨
        (k = "due_string" ∧ ∃ s, args.due_string = some s ∧ Json.str s = v) ∨
        (k = "due_date" ∧ ∃ s, args.due_date = some s ∧ Json.str s = v) ∨
        (k = "due_datetime" ∧ ∃ s, args.due_datetime = some s ∧ Json.str s = v) ∨
        (k = "due_lang" ∧ ∃ s, args.due_lang = some s ∧ Json.str s = v) ∨
        (k = "deadline_date" ∧ ∃ s, args.deadline_date = some s ∧ Json.str s = v) ∨
        (k = "deadline_lang" ∧ ∃ s, args.deadline_lang = some s ∧ Json.str s = v) ∨
        (k = "assignee_id" ∧ ∃ s, args.assignee_id = some s ∧ Json.str s = v) ∨
        (k = "duration" ∧ ∃ n, args.duration = some n ∧ Json.num n = v) ∨
        (k = "duration_unit" ∧ ∃ s, args.duration_unit = some s ∧ Json.str s = v)) ∧
    (∀ (args : UpdateProjectArgs) (k : String) (v : Json),
      (k, v) ∈ updateProjectBody args ↔
        (k = "name" ∧ ∃ s, args.name = some s ∧ Json.str s = v) ∨
        (k = "color" ∧ ∃ s, args.color = some s ∧ Json.str s = v) ∨
        (k = "is_favorite" ∧ ∃ b, args.is_favorite = some b ∧ Json.bool b = v) ∨
        (k = "view_style" ∧ ∃ s, args.view_style = some s ∧ Json.str s = v)) := by
  constructor
  · intro args k v
    simp [updateTaskBody, mem_optEntry, List.mem_append, Option.map_eq_some']
  · intro args k v
    simp [updateProjectBody, mem_optEntry, List.mem_append, Option.map_eq_some']

/-- C10: the query string of `get_tasks_by_filter` is the present fields'
`k=v` pairs (in the fixed order query, lang, limit, cursor) joined with `&`,
with the raw field strings inserted verbatim — no percent-encoding, so `&`,
`=` and spaces inside a value appear unescaped in the URL. -/
theorem task_filter_query_string_verbatim :
    (∀ args : TaskFilterArgs,
      getTasksByFilterUrl args =
        TODOIST_API_BASE ++ "/tasks" ++ "?" ++
          String.intercalate "&"
            ((taskFilterQueryParams args).map (fun kv => kv.1 ++ "=" ++ kv.2))) ∧
    getTasksByFilterUrl { query := "a&b=c d", lang := none, limit := some 10, cursor := none } =
      "https://api.todoist.com/rest/v2/tasks?query=a&b=c d&limit=10" := by
  constructor
  · intro args
    have h : (taskFilterQueryParams args).isEmpty = false := rfl
    simp [getTasksByFilterUrl, buildGetUrl, h]
  · rfl

/-- C2: classification of every non-2xx response: 401 is an authentication
error, 403 an authorization error, 404 a (generic) not-found, 400 a
validation error, 500-599 a server error carrying the numeric status, and
every other failing status (429 excepted, which the same classification
maps to RateLimited) a Generic error carrying the numeric status; the
message is the error body text when readable, else the synthetic
unknown-error message. -/
theorem handle_response_error_classification {α : Type}
    (parse : String → Except String α) (method endpoint : String)
    (resp : HttpResponse)
    (hfail : ¬ (200 ≤ resp.status ∧ resp.status ≤ 299)) :
    (resp.status = 401 → handleResponse parse method endpoint resp =
      Except.error (TodoistError.AuthenticationError (errorBodyText resp))) ∧
    (resp.status = 403 → handleResponse parse method endpoint resp =
      Except.error (TodoistError.AuthorizationError (errorBodyText resp))) ∧
    (resp.status = 404 → handleResponse parse method endpoint resp =
      Except.error (TodoistError.NotFound "Resource" none (errorBodyText resp))) ∧
    (resp.status = 400 → handleResponse parse method endpoint resp =
      Except.error (TodoistError.ValidationError none (errorBodyText resp))) ∧
    (500 ≤ resp.status → resp.status ≤ 599 →
      handleResponse parse method endpoint resp =
        Except.error (TodoistError.ServerError resp.status (errorBodyText resp))) ∧
    (resp.status ≠ 401 → resp.status ≠ 403 → resp.status ≠ 404 →
      resp.status ≠ 429 → resp.status ≠ 400 →
      ¬ (500 ≤ resp.status ∧ resp.status ≤ 599) →
      handleResponse parse method endpoint resp =
        Except.error (TodoistError.Generic (some resp.status) (errorBodyText resp))) ∧
    (∀ b, resp.bodyRead = some b → errorBodyText resp = b) ∧
    (resp.bodyRead = none →
      errorBodyText resp =
        "Unknown error occurred (HTTP " ++ toString resp.status ++ ")") := by
  refine ⟨?_, ?_, ?_, ?_, ?_, ?_, ?_, ?_⟩
  · intro h
    simp [handleResponse, hfail, h]
  · intro h
    simp [handleResponse, hfail, h]
  · intro h
    simp [handleResponse, hfail, h]
  · intro h
    simp [handleResponse, hfail, h]
  · intro h5 h9
    have h1 : resp.status ≠ 401 := by omega
    have h2 : resp.status ≠ 403 := by omega
    have h3 : resp.status ≠ 404 := by omega
    have h4 : resp.status ≠ 429 := by omega
    have h6 : resp.status ≠ 400 := by omega
    have h7 : 500 ≤ resp.status ∧ resp.status ≤ 599 := ⟨h5, h9⟩
    simp [handleResponse, hfail, h1, h2, h3, h4, h6, h7]
  · intro h1 h2 h3 h4 h6 h7
    simp [handleResponse, hfail, h1, h2, h3, h4, h6, h7]
  · intro b hb
    simp [errorBodyText, hb]
  · intro hb
    simp [errorBodyText, hb]

/-- C2 witness: a 503 response with readable body "boom" classifies as a
ServerError carrying status 503 and message "boom". -/
theorem handle_response_error_classification_witness :
    handleResponse unitParse "GET" "/x"
        { status := 503, bodyRead := some "boom", retryAfterHeader := none } =
      Except.error (TodoistError.ServerError 503 "boom") := by
  obtain ⟨-, -, -, -, h5, -, hmsg, -⟩ :=
    handle_response_error_classification unitParse "GET" "/x"
      { status := 503, bodyRead := some "boom", retryAfterHeader := none } (by decide)
  have := h5 (by decide) (by decide)
  rwa [hmsg "boom" rfl] at this

/-- C3: a 429 response classifies as RateLimited; its retry-after value is
`some n` exactly when the Retry-After header is present and parses as the
integer n (Rust `u64` parsing), and `none` otherwise (header absent or
unparseable); the message is the error body text. -/
theorem handle_response_rate_limited {α : Type}
    (parse : String → Except String α) (method endpoint : String)
    (resp : HttpResponse)
    (h429 : resp.status = 429) :
    handleResponse parse method endpoint resp =
      Except.error (TodoistError.RateLimited
        (resp.retryAfterHeader.bind parseU64) (errorBodyText resp)) ∧
    (∀ n : Nat, resp.retryAfterHeader.bind parseU64 = some n ↔
      ∃ s, resp.retryAfterHeader = some s ∧ parseU64 s = some n) ∧
    (∀ b, resp.bodyRead = some b → errorBodyText resp = b) := by
  have hfail : ¬ (200 ≤ resp.status ∧ resp.status ≤ 299) := by omega
  refine ⟨?_, ?_, ?_⟩
  · simp [handleResponse, hfail, h429]
  · intro n
    exact Option.bind_eq_some
  · intro b hb
    simp [errorBodyText, hb]

/-- C3 witness: a 429 with header value "30" yields retry-after `some 30`;
a 429 with no Retry-After header yields retry-after `none`; the message is
the body text in both cases. -/
theorem handle_response_rate_limited_witness :
    handleResponse unitParse "GET" "/x"
        { status := 429, bodyRead := some "slow down", retryAfterHeader := some "30" } =
      Except.error (TodoistError.RateLimited (some 30) "slow down") ∧
    handleResponse unitParse "GET" "/y"
        { status := 429, bodyRead := some "slow down", retryAfterHeader := none } =
      Except.error (TodoistError.RateLimited none "slow down") := by
  constructor
  · have h := (handle_response_rate_limited unitParse "GET" "/x"
      { status := 429, bodyRead := some "slow down", retryAfterHeader := some "30" } rfl).1
    rw [h]
    rfl
  · have h := (handle_response_rate_limited unitParse "GET" "/y"
      { status := 429, bodyRead := some "slow down", retryAfterHeader := none } rfl).1
    rw [h]
    rfl

/-- C4 counterexample: `get_project "42"` on a 404 response with body
"not found" returns `NotFound` with the generic resource type "Resource"
and no resource id — it does not carry the requested type name "Project"
nor the requested id "42", for any message. -/
theorem get_by_id_404_counterexample :
    getProject unitParse "42"
        { status := 404, bodyRead := some "not found", retryAfterHeader := none } =
      Except.error (TodoistError.NotFound "Resource" none "not found") ∧
    ¬ ∃ msg, getProject unitParse "42"
        { status := 404, bodyRead := some "not found", retryAfterHeader := none } =
      Except.error (TodoistError.NotFound "Project" (some "42") msg) := by
  have h1 : getProject unitParse "42"
      { status := 404, bodyRead := some "not found", retryAfterHeader := none } =
      Except.error (TodoistError.NotFound "Resource" none "not found") := rfl
  refine ⟨h1, ?_⟩
  rintro ⟨msg, h⟩
  rw [h1] at h
  injection h with h2
  injection h2 with h3 h4
  exact absurd h3 (by decide)

/-- C4 amended: every get-by-id call (`get_project`, `get_task`) whose
response has status 404 returns `NotFound` with the generic resource type
"Resource", no resource id, and the error body text as message: the layer
does not rewrap the error with the requested resource type or id. -/
theorem get_by_id_404_generic_not_found {α : Type}
    (parse : String → Except String α) (itemId : String)
    (resp : HttpResponse) (b : String)
    (h404 : resp.status = 404) (hbody : resp.bodyRead = some b) :
    getProject parse itemId resp =
      Except.error (TodoistError.NotFound "Resource" none b) ∧
    getTask parse itemId resp =
      Except.error (TodoistError.NotFound "Resource" none b) := by
  have hfail : ¬ (200 ≤ resp.status ∧ resp.status ≤ 299) := by omega
  constructor
  · simp [getProject, makeGetRequest, handleResponse, hfail, h404, errorBodyText, hbody]
  · simp [getTask, makeGetRequest, handleResponse, hfail, h404, errorBodyText, hbody]

/-- C4 amended witness: `get_task "7"` on a concrete 404 with body "gone"
yields the generic NotFound. -/
theorem get_by_id_404_generic_not_found_witness :
    getProject unitParse "7"
        { status := 404, bodyRead := some "gone", retryAfterHeader := none } =
      Except.error (TodoistError.NotFound "Resource" none "gone") ∧
    getTask unitParse "7"
        { status := 404, bodyRead := some "gone", retryAfterHeader := none } =
      Except.error (TodoistError.NotFound "Resource" none "gone") :=
  get_by_id_404_generic_not_found unitParse "7"
    { status := 404, bodyRead := some "gone", retryAfterHeader := none } "gone" rfl rfl

/-- C5: a DELETE whose response is 2xx with an empty or whitespace-only body
succeeds with the no-value result (the unit decoder accepts the synthesized
`null`), never a ParseError and never an EmptyResponse; in particular
`delete_project` does. -/
theorem delete_blank_body_success
    (endpoint projectId : String) (resp : HttpResponse) (t : String)
    (h2xx : 200 ≤ resp.status ∧ resp.status ≤ 299)
    (hbody : resp.bodyRead = some t)
    (hblank : isBlankText t = true) :
    makeDeleteRequest unitParse endpoint resp = Except.ok () ∧
    deleteProject projectId resp = Except.ok () := by
  constructor
  · simp [makeDeleteRequest, handleResponse, h2xx, hbody, hblank, unitParse_null]
  · simp [deleteProject, makeDeleteRequest, handleResponse, h2xx, hbody, hblank, unitParse_null]

/-- C5 witness: a 200 DELETE response with a whitespace-only body yields the
no-value success, both generically and for `delete_project`. -/
theorem delete_blank_body_success_witness :
    makeDeleteRequest unitParse "/projects/1"
        { status := 200, bodyRead := some "  ", retryAfterHeader := none } =
      Except.ok () ∧
    deleteProject "1"
        { status := 200, bodyRead := some "  ", retryAfterHeader := none } =
      Except.ok () :=
  delete_blank_body_success "/projects/1" "1"
    { status := 200, bodyRead := some "  ", retryAfterHeader := none } "  "
    (by decide) rfl (by decide)

/-- C6 counterexample: `create_project` — a POST decoded at the `Project`
struct type — on a 2xx response with status 204 and an empty body does not
yield a successful null result: the handler re-parses the synthesized
`null` with the struct decoder, which rejects it, so the call returns a
ParseError. (The document parameter of `projectParse` is irrelevant: only
the `null` document is ever decoded on this path.) -/
theorem post_empty_or_204_counterexample :
    createProject (projectParse (fun s => Except.error ("unmodelled document: " ++ s)))
        { status := 204, bodyRead := some "", retryAfterHeader := none } =
      Except.error (TodoistError.ParseError
        "Failed to deserialize empty POST response: invalid type: null, expected struct Project") ∧
    ¬ ∃ p : Project,
      createProject (projectParse (fun s => Except.error ("unmodelled document: " ++ s)))
          { status := 204, bodyRead := some "", retryAfterHeader := none } =
        Except.ok p := by
  have h1 : createProject (projectParse (fun s => Except.error ("unmodelled document: " ++ s)))
      { status := 204, bodyRead := some "", retryAfterHeader := none } =
      Except.error (TodoistError.ParseError
        "Failed to deserialize empty POST response: invalid type: null, expected struct Project") :=
    rfl
  refine ⟨h1, ?_⟩
  rintro ⟨p, h⟩
  rw [h1] at h
  exact Except.noConfusion h

/-- C6 amended: a POST whose response is 2xx with status 204 or an empty or
whitespace-only body has the synthesized `null` document re-parsed by the
expected type's decoder. For the POSTs decoded at the unit type — the task
close/reopen calls, the only POSTs that expect no response body — this
yields the successful no-value result; in particular `complete_task` (POST
to /tasks/{id}/close) returning 204 yields the no-value success. For a
decoder that rejects `null` (the struct-decoded create/update POSTs), the
same path yields a ParseError instead. -/
theorem post_empty_or_204_success
    (endpoint taskId : String) (resp : HttpResponse) (t : String)
    (h2xx : 200 ≤ resp.status ∧ resp.status ≤ 299)
    (hbody : resp.bodyRead = some t)
    (hcase : resp.status = 204 ∨ isBlankText t = true) :
    makePostRequest unitParse endpoint resp = Except.ok () ∧
    completeTask taskId resp = Except.ok () ∧
    (∀ {α : Type} (parse : String → Except String α) (e : String),
      parse "null" = Except.error e →
      makePostRequest parse endpoint resp =
        Except.error (TodoistError.ParseError
          ("Failed to deserialize empty POST response: " ++ e))) := by
  have hnd : ("POST" : String) ≠ "DELETE" := by decide
  rcases hcase with h204 | hblank
  · refine ⟨?_, ?_, ?_⟩
    · simp [makePostRequest, handleResponse, h2xx, hbody, hnd, h204, unitParse_null]
    · simp [completeTask, makePostRequest, handleResponse, h2xx, hbody, hnd, h204,
        unitParse_null]
    · intro α parse e he
      simp [makePostRequest, handleResponse, h2xx, hbody, hnd, h204, he]
  · refine ⟨?_, ?_, ?_⟩
    · simp [makePostRequest, handleResponse, h2xx, hbody, hnd, hblank, unitParse_null]
    · simp [completeTask, makePostRequest, handleResponse, h2xx, hbody, hnd, hblank,
        unitParse_null]
    · intro α parse e he
      simp [makePostRequest, handleResponse, h2xx, hbody, hnd, hblank, he]

/-- C6 amended witness: `complete_task "5"` on a 204 response with empty
body yields the no-value success, and `create_project` on the same response
shape yields the ParseError from the null-rejecting struct decoder. -/
theorem post_empty_or_204_success_witness :
    makePostRequest unitParse "/tasks/5/close"
        { status := 204, bodyRead := some "", retryAfterHeader := none } =
      Except.ok () ∧
    completeTask "5"
        { status := 204, bodyRead := some "", retryAfterHeader := none } =
      Except.ok () ∧
    createProject (projectParse (fun s => Except.error ("unmodelled document: " ++ s)))
        { status := 204, bodyRead := some "", retryAfterHeader := none } =
      Except.error (TodoistError.ParseError
        "Failed to deserialize empty POST response: invalid type: null, expected struct Project") := by
  have hclose := post_empty_or_204_success "/tasks/5/close" "5"
    { status := 204, bodyRead := some "", retryAfterHeader := none } ""
    (by decide) rfl (Or.inl rfl)
  have hcreate := post_empty_or_204_success "/projects" "5"
    { status := 204, bodyRead := some "", retryAfterHeader := none } ""
    (by decide) rfl (Or.inl rfl)
  exact ⟨hclose.1, hclose.2.1,
    hcreate.2.2 (projectParse (fun s => Except.error ("unmodelled document: " ++ s)))
      "invalid type: null, expected struct Project" rfl⟩

/-- C7: a 2xx response with a non-blank body (outside the DELETE/POST
empty-body and POST-204 special cases) is decoded with the expected type's
parser: a parse failure yields a ParseError carrying the underlying message,
and a parse success yields the typed value. -/
theorem success_body_parse_classification {α : Type}
    (parse : String → Except String α) (method endpoint : String)
    (resp : HttpResponse) (t : String)
    (h2xx : 200 ≤ resp.status ∧ resp.status ≤ 299)
    (hbody : resp.bodyRead = some t)
    (hnonblank : isBlankText t = false)
    (hnot204 : method = "POST" → resp.status ≠ 204) :
    (∀ e, parse t = Except.error e →
      handleResponse parse method endpoint resp =
        Except.error (TodoistError.ParseError ("Failed to parse response: " ++ e))) ∧
    (∀ v, parse t = Except.ok v →
      handleResponse parse method endpoint resp = Except.ok v) := by
  by_cases hm : method = "POST"
  · have h204 := hnot204 hm
    constructor
    · intro e he
      simp [handleResponse, h2xx, hbody, hnonblank, hm, h204, he]
    · intro v hv
      simp [handleResponse, h2xx, hbody, hnonblank, hm, h204, hv]
  · constructor
    · intro e he
      simp [handleResponse, h2xx, hbody, hnonblank, hm, he]
    · intro v hv
      simp [handleResponse, h2xx, hbody, hnonblank, hm, hv]

/-- C7 witness: a 200 GET response whose body "garbage" is not valid JSON
for the expected (unit) type yields a ParseError carrying the decoder's
message; a body that does parse yields the typed value. -/
theorem success_body_parse_classification_witness :
    handleResponse unitParse "GET" "/tasks"
        { status := 200, bodyRead := some "garbage", retryAfterHeader := none } =
      Except.error (TodoistError.ParseError
        ("Failed to parse response: invalid type, expected null, got: garbage")) ∧
    handleResponse unitParse "GET" "/tasks"
        { status := 200, bodyRead := some "null", retryAfterHeader := none } =
      Except.ok () := by
  constructor
  · exact (success_body_parse_classification unitParse "GET" "/tasks"
      { status := 200, bodyRead := some "garbage", retryAfterHeader := none } "garbage"
      (by decide) rfl (by decide) (fun h => absurd h (by decide))).1
      "invalid type, expected null, got: garbage" rfl
  · exact (success_body_parse_classification unitParse "GET" "/tasks"
      { status := 200, bodyRead := some "null", retryAfterHeader := none } "null"
      (by decide) rfl (by decide) (fun h => absurd h (by decide))).2 () rfl

/-- C8: a 2xx GET response with an empty or whitespace-only body fails with
EmptyResponse carrying the requested endpoint path. -/
theorem get_blank_body_empty_response {α : Type}
    (parse : String → Except String α) (endpoint : String)
    (resp : HttpResponse) (t : String)
    (h2xx : 200 ≤ resp.status ∧ resp.status ≤ 299)
    (hbody : resp.bodyRead = some t)
    (hblank : isBlankText t = true) :
    makeGetRequest parse endpoint resp =
      Except.error (TodoistError.EmptyResponse endpoint
        "API returned empty response body") := by
  have hnd : ("GET" : String) ≠ "DELETE" := by decide
  have hnp : ("GET" : String) ≠ "POST" := by decide
  simp [makeGetRequest, handleResponse, h2xx, hbody, hblank, hnd, hnp]

/-- C8 witness: a 200 GET to /projects with an empty body yields
EmptyResponse carrying "/projects". -/
theorem get_blank_body_empty_response_witness :
    makeGetRequest unitParse "/projects"
        { status := 200, bodyRead := some "", retryAfterHeader := none } =
      Except.error (TodoistError.EmptyResponse "/projects"
        "API returned empty response body") :=
  get_blank_body_empty_response unitParse "/projects"
    { status := 200, bodyRead := some "", retryAfterHeader := none } ""
    (by decide) rfl (by decide)

end Todoist
